import Mathlib

/-!
Verification of the inventory-cost dashboard (src/inventory_data.py).

The embedding models the SQL aggregation query built by `get_inventory_data`
as a Lean function over an explicit relational database value, and the
post-processing in `load_inventory_data`, the filtering in `apply_filters`,
the summary metrics of `display_dashboard`, and the CSV export file name
as Lean functions.  Numeric columns are embedded as `Rat` (exact arithmetic);
nullable SQL columns and nullable dataframe cells are `Option` values.
-/

namespace InventoryDashboard

/-- Row of the `pt_mstr` table (part master).  Categorical columns that the
dashboard later fills with empty strings are nullable. -/
structure PtMstrRow where
  pt_part : String
  pt_desc1 : String
  pt_desc2 : String
  pt_prod_line : Option String
  pt__chr02 : Option String
  pt_dsgn_grp : Option String
  pt_part_type : String
deriving Repr, DecidableEq

/-- Row of the `sct_det` table (standard cost detail).  `sct_cst_tot` is
nullable in the database. -/
structure SctDetRow where
  sct_part : String
  sct_sim : String
  sct_cst_tot : Option Rat
  sct_mtl_tl : Rat
  sct_mtl_ll : Rat
deriving Repr, DecidableEq

/-- Row of the `ld_det` table (location detail: on-hand quantity per part
and location). -/
structure LdDetRow where
  ld_part : String
  ld_loc : String
  ld_qty_oh : Rat
deriving Repr, DecidableEq

/-- Row of the `xxwezoned_det` table (location-to-zone mapping). -/
structure XxwezonedDetRow where
  xxwezoned_loc : String
  xxwezoned_area_id : String
deriving Repr, DecidableEq

/-- The database state the fixed query of `get_inventory_data` runs against. -/
structure Database where
  pt_mstr : List PtMstrRow
  sct_det : List SctDetRow
  ld_det : List LdDetRow
  xxwezoned_det : List XxwezonedDetRow
deriving Repr, DecidableEq

/-- One row of the query result set (the columns selected by the
`PartInventory` CTE in `get_inventory_data`). -/
structure InventoryRow where
  pt_part : String
  pt_desc1 : String
  pt_desc2 : String
  pt_prod_line : Option String
  pt__chr02 : Option String
  pt_dsgn_grp : Option String
  sct_cst_tot : Option Rat
  MaterialCost : Option Rat
  WH_Qty : Rat
  WIP_Qty : Rat
  EXLPICK_Qty : Rat
  total_qty_avail : Rat
  Total_COGS : Rat
  COGS_WH : Rat
  COGS_WIP : Rat
  COGS_EXLPICK : Rat
deriving Repr, DecidableEq

/-- Zone of a location: the `LEFT JOIN [xxwezoned_det] xz ON ld.ld_loc =
xxwezoned_loc` inside the `ldx` subquery; `none` when the location has no
zone mapping (the join produces NULL). -/
def zoneOf (db : Database) (loc : String) : Option String :=
  (db.xxwezoned_det.find? (fun z => z.xxwezoned_loc == loc)).map
    (fun z => z.xxwezoned_area_id)

/-- Zone-bucketed quantity of a part: `SUM(CASE WHEN xz.xxwezoned_area_id =
zone THEN ld.ld_qty_oh ELSE 0 END)` grouped by `ld_part`, as in the `ldx`
subquery.  In SQL a NULL `xxwezoned_area_id` compares unequal to every zone
name, hence the `ELSE 0` branch. -/
def zoneQty (db : Database) (part : String) (zone : String) : Rat :=
  ((db.ld_det.filter (fun ld => ld.ld_part == part)).map
    (fun ld => if zoneOf db ld.ld_loc = some zone then ld.ld_qty_oh else 0)).sum

/-- The row the `PartInventory` CTE produces for one `pt_mstr` row:
`LEFT JOIN sct_det ON pt_part = sct_part AND sct_sim = 'Standard'`, the
`ldx` zone-quantity subquery joined on part, and the derived
`total_qty_avail` and COGS columns with their `ISNULL(..., 0)` defaults. -/
def queryRow (db : Database) (pt : PtMstrRow) : InventoryRow :=
  let sd := db.sct_det.find? (fun s => s.sct_part == pt.pt_part && s.sct_sim == "Standard")
  let cost : Option Rat := sd.bind (fun s => s.sct_cst_tot)
  let wh := zoneQty db pt.pt_part "WH"
  let wip := zoneQty db pt.pt_part "WIP"
  let exl := zoneQty db pt.pt_part "EXLPICK"
  { pt_part := pt.pt_part
    pt_desc1 := pt.pt_desc1
    pt_desc2 := pt.pt_desc2
    pt_prod_line := pt.pt_prod_line
    pt__chr02 := pt.pt__chr02
    pt_dsgn_grp := pt.pt_dsgn_grp
    sct_cst_tot := cost
    MaterialCost := sd.map (fun s => s.sct_mtl_tl + s.sct_mtl_ll)
    WH_Qty := wh
    WIP_Qty := wip
    EXLPICK_Qty := exl
    total_qty_avail := wh + wip + exl
    Total_COGS := match cost with
      | some c => c * (wh + wip + exl)
      | none => 0
    COGS_WH := match cost with
      | some c => c * wh
      | none => 0
    COGS_WIP := match cost with
      | some c => c * wip
      | none => 0
    COGS_EXLPICK := match cost with
      | some c => c * exl
      | none => 0 }

/-- Result set of the fixed query returned by `get_inventory_data`: one row
per `pt_mstr` row whose `pt_part_type` is not in `('xc', 'rc')`, ordered by
`Total_COGS DESC` (stable sort). -/
def get_inventory_data (db : Database) : List InventoryRow :=
  ((db.pt_mstr.filter
      (fun pt => !(pt.pt_part_type == "xc" || pt.pt_part_type == "rc"))).map
    (queryRow db)).mergeSort (fun a b => b.Total_COGS ≤ a.Total_COGS)

/-- The `fillna('')` normalization `load_inventory_data` and `apply_filters`
apply to the three categorical columns `pt_dsgn_grp`, `pt_prod_line`,
`pt__chr02`. -/
def fillnaRow (r : InventoryRow) : InventoryRow :=
  { r with
    pt_dsgn_grp := some (r.pt_dsgn_grp.getD "")
    pt_prod_line := some (r.pt_prod_line.getD "")
    pt__chr02 := some (r.pt__chr02.getD "") }

/-- Message shown by the Streamlit UI layer (`st.error` / `st.warning`). -/
inductive UiMessage where
  | error (msg : String)
  | warning (msg : String)
deriving Repr, DecidableEq

/-- `load_inventory_data`: `conn` is the value yielded by `get_connection`
(`none` after a connection failure).  On failure it emits an error and
returns an empty dataframe; on an empty result set it emits a warning and
returns an empty dataframe; otherwise it keeps the rows with
`total_qty_avail != 0` and fills the three categorical columns. -/
def load_inventory_data (conn : Option Database) :
    Option UiMessage × List InventoryRow :=
  match conn with
  | none => (some (UiMessage.error "Failed to establish database connection"), [])
  | some db =>
    let raw := get_inventory_data db
    if raw.isEmpty then
      (some (UiMessage.warning "No data retrieved from database"), [])
    else
      (none, (raw.filter (fun r => !(r.total_qty_avail == 0))).map fillnaRow)

/-- `apply_filters`: fills the three categorical columns, then keeps the rows
whose (filled) column value is in the selected list, skipping each dimension
whose selection is empty; an empty input dataframe short-circuits to an
empty result.  `selected_cogs_type` is accepted but unused, as in the
source. -/
def apply_filters (df : List InventoryRow) (selected_design_groups : List String)
    (selected_cogs_type : String) (selected_prod_lines : List String)
    (selected_chr02 : List String) : List InventoryRow :=
  if df.isEmpty then []
  else
    let filtered₁ := df.map fillnaRow
    let filtered₂ :=
      if selected_design_groups.isEmpty then filtered₁
      else filtered₁.filter
        (fun r => selected_design_groups.contains (r.pt_dsgn_grp.getD ""))
    let filtered₃ :=
      if selected_prod_lines.isEmpty then filtered₂
      else filtered₂.filter
        (fun r => selected_prod_lines.contains (r.pt_prod_line.getD ""))
    if selected_chr02.isEmpty then filtered₃
    else filtered₃.filter
      (fun r => selected_chr02.contains (r.pt__chr02.getD ""))

/-- Column selection `df[selected_cogs_type]` for the four COGS metrics the
dashboard offers (`cogs_types = ['Total_COGS', 'COGS_WH', 'COGS_WIP',
'COGS_EXLPICK']`). -/
def metricValue (selected_cogs_type : String) (r : InventoryRow) : Rat :=
  if selected_cogs_type = "Total_COGS" then r.Total_COGS
  else if selected_cogs_type = "COGS_WH" then r.COGS_WH
  else if selected_cogs_type = "COGS_WIP" then r.COGS_WIP
  else r.COGS_EXLPICK

/-- The four summary metrics `display_dashboard` renders for a non-empty
filtered dataframe. -/
structure SummaryMetrics where
  totalParts : Nat
  metricSum : Rat
  avgCostPerPart : Rat
  totalQuantity : Rat
deriving Repr, DecidableEq

/-- Summary-metric step of `display_dashboard`: if the filtered dataframe is
empty the function warns and returns early, computing no metrics (`none`);
otherwise it renders the unique part count, the sum and mean of the selected
COGS column, and the total quantity. -/
def display_dashboard_metrics (filtered : List InventoryRow)
    (selected_cogs_type : String) : Option SummaryMetrics :=
  if filtered.isEmpty then none
  else
    let s := (filtered.map (metricValue selected_cogs_type)).sum
    some
      { totalParts := (filtered.map (fun r => r.pt_part)).dedup.length
        metricSum := s
        avgCostPerPart := s / (filtered.length : Rat)
        totalQuantity := (filtered.map (fun r => r.total_qty_avail)).sum }

/-- Timestamp fed to `datetime.now().strftime`. -/
structure Timestamp where
  year : Nat
  month : Nat
  day : Nat
  hour : Nat
  minute : Nat
  second : Nat
deriving Repr, DecidableEq

/-- Left-pad a decimal numeral with zeros to width `w`, as the `strftime`
field formats do. -/
def padZero (w : Nat) (n : Nat) : String :=
  String.mk (List.replicate (w - (toString n).length) '0') ++ toString n

/-- `datetime.now().strftime('%Y%m%d_%H%M%S')`. -/
def strftimeCompact (t : Timestamp) : String :=
  padZero 4 t.year ++ padZero 2 t.month ++ padZero 2 t.day ++ "_" ++
    padZero 2 t.hour ++ padZero 2 t.minute ++ padZero 2 t.second

/-- The download file name built in `display_dashboard`:
`f"inventory_report_2798{datetime.now().strftime('%Y%m%d_%H%M%S')}.csv"`. -/
def export_file_name (t : Timestamp) : String :=
  "inventory_report_2798" ++ strftimeCompact t ++ ".csv"

/-- Modelled from the spec: the file-name pattern the spec states,
`inventory_report_<source-id>_<YYYYMMDD_HHMMSS>.csv`, with an underscore
separating the source identifier from the timestamp. -/
def specExportFileName (sourceId : String) (timestamp : String) : String :=
  "inventory_report_" ++ sourceId ++ "_" ++ timestamp ++ ".csv"

/-- The amended file-name pattern: source identifier immediately followed by
the timestamp, with no separating underscore. -/
def amendedExportFileName (sourceId : String) (timestamp : String) : String :=
  "inventory_report_" ++ sourceId ++ timestamp ++ ".csv"

/-! ## Helper lemmas -/

/-- Combined pass predicate of the three sequential `isin` filters of
`apply_filters`: each dimension passes when its selection is empty or the
filled column value is selected. -/
def rowPasses (sdg spl sc : List String) (r : InventoryRow) : Bool :=
  (sdg.isEmpty || sdg.contains (r.pt_dsgn_grp.getD ""))
    && (spl.isEmpty || spl.contains (r.pt_prod_line.getD ""))
    && (sc.isEmpty || sc.contains (r.pt__chr02.getD ""))

theorem and_shuffle (a b c : Bool) : ((c && b) && a) = ((a && b) && c) := by
  cases a <;> cases b <;> cases c <;> rfl

/-- A conditionally skipped filter is a filter whose predicate is disjoined
with the skip condition. -/
theorem skip_filter (b : Bool) (p : InventoryRow → Bool) (l : List InventoryRow) :
    (if b = true then l else l.filter p) = l.filter (fun r => b || p r) := by
  cases b
  · simp
  · simp [List.filter_true]

/-- `apply_filters` is one `fillna` map followed by one filter with the
combined pass predicate. -/
theorem apply_filters_eq (df : List InventoryRow) (sdg : List String)
    (ct : String) (spl sc : List String) :
    apply_filters df sdg ct spl sc
      = (df.map fillnaRow).filter (rowPasses sdg spl sc) := by
  rcases df with _ | ⟨a, l⟩
  · simp [apply_filters]
  · unfold apply_filters
    simp only [List.isEmpty_cons, Bool.false_eq_true, if_false]
    rw [skip_filter, skip_filter, skip_filter, List.filter_filter, List.filter_filter]
    exact List.filter_congr fun x _ => and_shuffle _ _ _

theorem fillnaRow_idem (r : InventoryRow) : fillnaRow (fillnaRow r) = fillnaRow r := by
  simp [fillnaRow]

theorem fillnaRow_total_qty (r : InventoryRow) :
    (fillnaRow r).total_qty_avail = r.total_qty_avail := rfl

theorem fillnaRow_pt_part (r : InventoryRow) : (fillnaRow r).pt_part = r.pt_part := rfl

theorem map_id_of_mem {α : Type} {l : List α} {f : α → α}
    (h : ∀ a ∈ l, f a = a) : l.map f = l := by
  induction l with
  | nil => rfl
  | cons a l ih => simp_all

/-! ## C3: membership characterization of apply_filters -/

/-- C3: a record is in the output of `apply_filters` exactly when it is a
(null-normalized) record of the input and, for each of the three dimensions
whose selection set is non-empty, its corresponding column value is a member
of that set; an empty selection set imposes no constraint (AND across
dimensions, OR within a dimension). -/
theorem apply_filters_mem_iff (df : List InventoryRow) (sdg : List String)
    (ct : String) (spl sc : List String) (r : InventoryRow) :
    r ∈ apply_filters df sdg ct spl sc ↔
      (∃ r₀ ∈ df, fillnaRow r₀ = r) ∧
        (sdg ≠ [] → r.pt_dsgn_grp.getD "" ∈ sdg) ∧
        (spl ≠ [] → r.pt_prod_line.getD "" ∈ spl) ∧
        (sc ≠ [] → r.pt__chr02.getD "" ∈ sc) := by
  rw [apply_filters_eq, List.mem_filter, List.mem_map]
  refine and_congr_right fun _ => ?_
  simp only [rowPasses, Bool.and_eq_true, Bool.or_eq_true, List.isEmpty_iff,
    List.contains, List.elem_iff, and_assoc]
  constructor
  · rintro ⟨h1, h2, h3⟩
    exact ⟨fun hn => h1.resolve_left hn, fun hn => h2.resolve_left hn,
      fun hn => h3.resolve_left hn⟩
  · rintro ⟨h1, h2, h3⟩
    refine ⟨?_, ?_, ?_⟩
    · by_cases h : sdg = []
      · exact Or.inl h
      · exact Or.inr (h1 h)
    · by_cases h : spl = []
      · exact Or.inl h
      · exact Or.inr (h2 h)
    · by_cases h : sc = []
      · exact Or.inl h
      · exact Or.inr (h3 h)

/-- C3 witness: the characterization applied at a concrete dataset and
criteria whose design-group selection contains the normalized empty-string
value. -/
theorem apply_filters_mem_iff_witness :
    fillnaRow
        { pt_part := "P9", pt_desc1 := "PAD", pt_desc2 := "",
          pt_prod_line := none, pt__chr02 := none, pt_dsgn_grp := none,
          sct_cst_tot := none, MaterialCost := none,
          WH_Qty := 0, WIP_Qty := 0, EXLPICK_Qty := 0, total_qty_avail := 0,
          Total_COGS := 0, COGS_WH := 0, COGS_WIP := 0, COGS_EXLPICK := 0 }
      ∈ apply_filters
        [{ pt_part := "P9", pt_desc1 := "PAD", pt_desc2 := "",
           pt_prod_line := none, pt__chr02 := none, pt_dsgn_grp := none,
           sct_cst_tot := none, MaterialCost := none,
           WH_Qty := 0, WIP_Qty := 0, EXLPICK_Qty := 0, total_qty_avail := 0,
           Total_COGS := 0, COGS_WH := 0, COGS_WIP := 0, COGS_EXLPICK := 0 }]
        [""] "Total_COGS" [] [] :=
  (apply_filters_mem_iff _ [""] "Total_COGS" [] [] _).mpr
    ⟨⟨_, by decide, rfl⟩, by decide, by decide, by decide⟩

/-! ## C7: apply_filters with all-empty criteria -/

/-- Row with null categorical columns, as the raw query can produce for a
part with no design group, product line or secondary classification. -/
def rowNullCats : InventoryRow :=
  { pt_part := "P9", pt_desc1 := "PAD", pt_desc2 := "",
    pt_prod_line := none, pt__chr02 := none, pt_dsgn_grp := none,
    sct_cst_tot := none, MaterialCost := none,
    WH_Qty := 0, WIP_Qty := 0, EXLPICK_Qty := 0, total_qty_avail := 0,
    Total_COGS := 0, COGS_WH := 0, COGS_WIP := 0, COGS_EXLPICK := 0 }

/-- C7 counterexample: on an input containing a record with a null
categorical column, `apply_filters` with all-empty criteria does not return
the input unchanged — it rewrites the null columns to empty strings. -/
theorem apply_filters_empty_crit_changes_content :
    apply_filters [rowNullCats] [] "Total_COGS" [] [] ≠ [rowNullCats] := by
  decide

/-- C7 (amended): `apply_filters` with all-empty criteria returns every input
record in order, with the three categorical columns null-normalized to empty
strings; when no record has a null categorical column the input is returned
unchanged in content and order. -/
theorem apply_filters_empty_crit (df : List InventoryRow) (ct : String) :
    apply_filters df [] ct [] [] = df.map fillnaRow ∧
      ((∀ r ∈ df, fillnaRow r = r) → apply_filters df [] ct [] [] = df) := by
  have h : apply_filters df [] ct [] [] = df.map fillnaRow := by
    rw [apply_filters_eq]
    exact List.filter_eq_self.mpr fun a _ => rfl
  exact ⟨h, fun hall => by rw [h, map_id_of_mem hall]⟩

/-- C7 witness: a concrete record with no null categorical columns passes
through unchanged. -/
theorem apply_filters_empty_crit_witness :
    apply_filters [fillnaRow rowNullCats] [] "Total_COGS" [] [] = [fillnaRow rowNullCats] :=
  (apply_filters_empty_crit [fillnaRow rowNullCats] "Total_COGS").2 (by decide)

/-! ## C8: idempotence of apply_filters -/

/-- C8: applying `apply_filters` a second time with the same criteria to its
own output returns that output unchanged. -/
theorem apply_filters_idem (df : List InventoryRow) (sdg : List String)
    (ct : String) (spl sc : List String) :
    apply_filters (apply_filters df sdg ct spl sc) sdg ct spl sc
      = apply_filters df sdg ct spl sc := by
  rw [apply_filters_eq df, apply_filters_eq]
  have hmap : ((df.map fillnaRow).filter (rowPasses sdg spl sc)).map fillnaRow
      = (df.map fillnaRow).filter (rowPasses sdg spl sc) := by
    apply map_id_of_mem
    intro a ha
    obtain ⟨b, _, rfl⟩ := List.mem_map.mp (List.mem_filter.mp ha).1
    exact fillnaRow_idem b
  rw [hmap, List.filter_filter]
  apply List.filter_congr
  intro x _
  exact Bool.and_self _

/-! ## Example databases -/

/-- Part master row for a part with a negative on-hand quantity booking. -/
def ptP1 : PtMstrRow :=
  { pt_part := "P1", pt_desc1 := "FOAM SEAT", pt_desc2 := "",
    pt_prod_line := some "PL1", pt__chr02 := some "C1",
    pt_dsgn_grp := some "DG1", pt_part_type := "m" }

/-- Database in which part `P1` has on-hand quantity `-5` in zone `WH` at
standard cost `2`. -/
def dbNegQty : Database :=
  { pt_mstr := [ptP1],
    sct_det := [{ sct_part := "P1", sct_sim := "Standard", sct_cst_tot := some 2,
                  sct_mtl_tl := 1, sct_mtl_ll := 0 }],
    ld_det := [{ ld_part := "P1", ld_loc := "L1", ld_qty_oh := -5 }],
    xxwezoned_det := [{ xxwezoned_loc := "L1", xxwezoned_area_id := "WH" }] }

/-- Part master row for a part stocked only at a location outside the three
named zones. -/
def ptP2 : PtMstrRow :=
  { pt_part := "P2", pt_desc1 := "FOAM BACK", pt_desc2 := "",
    pt_prod_line := some "PL2", pt__chr02 := some "C2",
    pt_dsgn_grp := some "DG2", pt_part_type := "m" }

/-- Database in which part `P2` has on-hand quantity `7` at a location whose
zone is `OTHER`, not one of `WH`, `WIP`, `EXLPICK`. -/
def dbOtherZone : Database :=
  { pt_mstr := [ptP2],
    sct_det := [{ sct_part := "P2", sct_sim := "Standard", sct_cst_tot := some 3,
                  sct_mtl_tl := 1, sct_mtl_ll := 1 }],
    ld_det := [{ ld_part := "P2", ld_loc := "LX", ld_qty_oh := 7 }],
    xxwezoned_det := [{ xxwezoned_loc := "LX", xxwezoned_area_id := "OTHER" }] }

/-- Database with no rows at all: connecting succeeds and the query returns
an empty result set. -/
def dbNoRows : Database := { pt_mstr := [], sct_det := [], ld_det := [], xxwezoned_det := [] }

/-- Database whose only part has part type `xc`. -/
def dbXcOnly : Database :=
  { pt_mstr := [{ pt_part := "X1", pt_desc1 := "", pt_desc2 := "",
                  pt_prod_line := none, pt__chr02 := none, pt_dsgn_grp := none,
                  pt_part_type := "xc" }],
    sct_det := [], ld_det := [], xxwezoned_det := [] }

/-! ## C1: quantities in the loaded dataset -/

/-- C1 counterexample: `load_inventory_data` keeps a record whose
`total_qty_avail` is `-5`; the filter excludes only zero, not negative,
quantities, so not every record has a strictly positive quantity. -/
theorem load_keeps_negative_qty :
    ∃ r ∈ (load_inventory_data (some dbNegQty)).2, ¬ 0 < r.total_qty_avail := by
  refine ⟨fillnaRow (queryRow dbNegQty ptP1), ?_, ?_⟩
  · simp +decide [load_inventory_data, get_inventory_data, queryRow, zoneQty, zoneOf,
      fillnaRow, dbNegQty, ptP1, List.mergeSort_singleton]
  · simp +decide [queryRow, zoneQty, zoneOf, fillnaRow, dbNegQty, ptP1]

/-- C1 (amended): every record in the dataset returned by
`load_inventory_data` has a nonzero `total_qty_avail`; records with zero
quantity are excluded, but negative quantities are retained. -/
theorem load_qty_nonzero (conn : Option Database) (r : InventoryRow)
    (hr : r ∈ (load_inventory_data conn).2) : r.total_qty_avail ≠ 0 := by
  match conn with
  | none => simp [load_inventory_data] at hr
  | some db =>
    simp only [load_inventory_data] at hr
    by_cases he : (get_inventory_data db).isEmpty = true
    · simp [he] at hr
    · simp only [he, if_false] at hr
      obtain ⟨r₀, hr₀, rfl⟩ := List.mem_map.mp hr
      have h2 := (List.mem_filter.mp hr₀).2
      rw [fillnaRow_total_qty]
      simpa using h2

/-- C1 witness: the retained record of `dbNegQty` indeed has nonzero
quantity. -/
theorem load_qty_nonzero_witness :
    (fillnaRow (queryRow dbNegQty ptP1)).total_qty_avail ≠ 0 :=
  load_qty_nonzero (some dbNegQty) (fillnaRow (queryRow dbNegQty ptP1))
    (by simp +decide [load_inventory_data, get_inventory_data, queryRow, zoneQty, zoneOf,
      fillnaRow, dbNegQty, ptP1, List.mergeSort_singleton])

/-! ## C2: zone buckets and the total quantity -/

/-- C2 counterexample: part `P2` has `7` on hand at a location zoned
`OTHER`; that quantity contributes to none of the three cost buckets and
also does not count toward `total_qty_avail`, which comes out `0`. -/
theorem other_zone_qty_not_in_total :
    dbOtherZone.ld_det.map (fun ld => ld.ld_qty_oh) = [7] ∧
      (get_inventory_data dbOtherZone).map (fun r => r.total_qty_avail) = [0] ∧
      (get_inventory_data dbOtherZone).map
        (fun r => (r.COGS_WH, r.COGS_WIP, r.COGS_EXLPICK)) = [(0, 0, 0)] := by
  refine ⟨by decide, ?_, ?_⟩ <;>
    simp +decide [get_inventory_data, queryRow, zoneQty, zoneOf, dbOtherZone, ptP2,
      List.mergeSort_singleton]

/-- C2 (amended): each zone bucket of a result record sums exactly the
on-hand quantity at locations mapped to that named zone, and
`total_qty_avail` is the sum of the three zone buckets only — quantity at
locations with any other (or no) zone counts toward neither the buckets nor
the total. -/
theorem zone_buckets_total (db : Database) (r : InventoryRow)
    (hr : r ∈ get_inventory_data db) :
    r.WH_Qty = zoneQty db r.pt_part "WH" ∧
      r.WIP_Qty = zoneQty db r.pt_part "WIP" ∧
      r.EXLPICK_Qty = zoneQty db r.pt_part "EXLPICK" ∧
      r.total_qty_avail = zoneQty db r.pt_part "WH" + zoneQty db r.pt_part "WIP"
        + zoneQty db r.pt_part "EXLPICK" := by
  unfold get_inventory_data at hr
  rw [List.mem_mergeSort, List.mem_map] at hr
  obtain ⟨pt, _, rfl⟩ := hr
  exact ⟨rfl, rfl, rfl, rfl⟩

/-- C2 witness: the buckets and total of the `dbOtherZone` record. -/
theorem zone_buckets_total_witness :
    (queryRow dbOtherZone ptP2).total_qty_avail =
      zoneQty dbOtherZone (queryRow dbOtherZone ptP2).pt_part "WH"
        + zoneQty dbOtherZone (queryRow dbOtherZone ptP2).pt_part "WIP"
        + zoneQty dbOtherZone (queryRow dbOtherZone ptP2).pt_part "EXLPICK" :=
  (zone_buckets_total dbOtherZone (queryRow dbOtherZone ptP2)
    (by simp +decide [get_inventory_data, queryRow, zoneQty, zoneOf, dbOtherZone, ptP2,
      List.mergeSort_singleton])).2.2.2

/-! ## C4: Total_COGS decomposition -/

/-- C4: for every record of the aggregation query, `Total_COGS` equals
`COGS_WH + COGS_WIP + COGS_EXLPICK`, and whenever the standard cost is
present it also equals the unit standard cost times `total_qty_avail`. -/
theorem total_cogs_decomposition (db : Database) (r : InventoryRow)
    (hr : r ∈ get_inventory_data db) :
    r.Total_COGS = r.COGS_WH + r.COGS_WIP + r.COGS_EXLPICK ∧
      ∀ c, r.sct_cst_tot = some c → r.Total_COGS = c * r.total_qty_avail := by
  unfold get_inventory_data at hr
  rw [List.mem_mergeSort, List.mem_map] at hr
  obtain ⟨pt, _, rfl⟩ := hr
  cases hc : (db.sct_det.find?
      (fun s => s.sct_part == pt.pt_part && s.sct_sim == "Standard")).bind
      (fun s => s.sct_cst_tot) with
  | none =>
    simp only [queryRow, hc]
    refine ⟨by norm_num, ?_⟩
    intro c h
    simp at h
  | some c =>
    simp only [queryRow, hc]
    refine ⟨by ring, ?_⟩
    intro c₂ h₂
    obtain rfl : c = c₂ := by simpa using h₂
    rfl

/-- C4 witness: the decomposition at the single record of `dbNegQty`. -/
theorem total_cogs_decomposition_witness :
    (queryRow dbNegQty ptP1).Total_COGS = (queryRow dbNegQty ptP1).COGS_WH
        + (queryRow dbNegQty ptP1).COGS_WIP + (queryRow dbNegQty ptP1).COGS_EXLPICK ∧
      ∀ c, (queryRow dbNegQty ptP1).sct_cst_tot = some c →
        (queryRow dbNegQty ptP1).Total_COGS = c * (queryRow dbNegQty ptP1).total_qty_avail :=
  total_cogs_decomposition dbNegQty (queryRow dbNegQty ptP1)
    (by simp +decide [get_inventory_data, queryRow, zoneQty, zoneOf, dbNegQty, ptP1,
      List.mergeSort_singleton])

/-! ## C6: connection failure vs connected-but-empty -/

/-- C6: a connection failure and a successful connection with an empty
result set produce distinct signals to the presentation layer: an error
message in the one case, a warning message in the other, while both return
an empty dataset. -/
theorem conn_failure_vs_empty (db : Database) (h : get_inventory_data db = []) :
    (load_inventory_data none).1
        = some (UiMessage.error "Failed to establish database connection") ∧
      (load_inventory_data (some db)).1
        = some (UiMessage.warning "No data retrieved from database") ∧
      (load_inventory_data none).1 ≠ (load_inventory_data (some db)).1 := by
  have h2 : (load_inventory_data (some db)).1
      = some (UiMessage.warning "No data retrieved from database") := by
    simp [load_inventory_data, h]
  refine ⟨rfl, h2, ?_⟩
  rw [h2]
  decide

/-- C6 witness: the two signals at a database whose query result is empty. -/
theorem conn_failure_vs_empty_witness :
    (load_inventory_data none).1
        = some (UiMessage.error "Failed to establish database connection") ∧
      (load_inventory_data (some dbNoRows)).1
        = some (UiMessage.warning "No data retrieved from database") ∧
      (load_inventory_data none).1 ≠ (load_inventory_data (some dbNoRows)).1 :=
  conn_failure_vs_empty dbNoRows
    (by simp [get_inventory_data, dbNoRows, List.mergeSort_nil])

/-! ## C10: part types xc and rc are excluded by the query -/

/-- C10: if every part-master row carrying a given part id has part type
`xc` or `rc`, then no record with that part id appears in the raw result
set of the fixed query, nor in the loaded dataset built from it. -/
theorem part_types_xc_rc_excluded (db : Database) (p : String)
    (hp : ∀ pt ∈ db.pt_mstr, pt.pt_part = p →
      pt.pt_part_type = "xc" ∨ pt.pt_part_type = "rc") :
    (∀ r ∈ get_inventory_data db, r.pt_part ≠ p) ∧
      (∀ r ∈ (load_inventory_data (some db)).2, r.pt_part ≠ p) := by
  have h1 : ∀ r ∈ get_inventory_data db, r.pt_part ≠ p := by
    intro r hr
    unfold get_inventory_data at hr
    rw [List.mem_mergeSort, List.mem_map] at hr
    obtain ⟨pt, hpt, rfl⟩ := hr
    have hf := List.mem_filter.mp hpt
    intro heq
    rcases hp pt hf.1 heq with h | h <;>
      · have hb := hf.2
        simp [h] at hb
  refine ⟨h1, ?_⟩
  intro r hr
  simp only [load_inventory_data] at hr
  by_cases he : (get_inventory_data db).isEmpty = true
  · simp [he] at hr
  · simp only [he, if_false] at hr
    obtain ⟨r₀, hr₀, rfl⟩ := List.mem_map.mp hr
    rw [fillnaRow_pt_part]
    exact h1 r₀ (List.mem_filter.mp hr₀).1

/-- C10 witness: in a database whose only part `X1` has type `xc`, no
result record carries part id `X1`. -/
theorem part_types_xc_rc_excluded_witness :
    (∀ r ∈ get_inventory_data dbXcOnly, r.pt_part ≠ "X1") ∧
      (∀ r ∈ (load_inventory_data (some dbXcOnly)).2, r.pt_part ≠ "X1") :=
  part_types_xc_rc_excluded dbXcOnly "X1" (by decide)

/-! ## C5: summary metrics on an empty filtered set -/

/-- C5 counterexample: on an empty filtered dataframe `display_dashboard`
returns early with a warning and computes no summary at all, rather than an
all-zero summary. -/
theorem metrics_empty_not_all_zero :
    display_dashboard_metrics [] "Total_COGS" ≠
      some { totalParts := 0, metricSum := 0, avgCostPerPart := 0, totalQuantity := 0 } := by
  decide

/-- C5 (amended): on an empty filtered set no summary is computed — the
dashboard renders the no-data warning instead, so no division by zero can
occur; on every non-empty set a summary is computed, whose mean divides the
metric sum by the (positive) record count. -/
theorem metrics_empty_guard (m : String) :
    display_dashboard_metrics [] m = none ∧
      ∀ df : List InventoryRow, df ≠ [] →
        ∃ s, display_dashboard_metrics df m = some s ∧
          s.avgCostPerPart = s.metricSum / (df.length : Rat) := by
  refine ⟨rfl, ?_⟩
  intro df hdf
  have he : df.isEmpty = false := by simpa [List.isEmpty_iff] using hdf
  refine ⟨⟨(df.map (fun r => r.pt_part)).dedup.length,
      (df.map (metricValue m)).sum,
      (df.map (metricValue m)).sum / (df.length : Rat),
      (df.map (fun r => r.total_qty_avail)).sum⟩, ?_, rfl⟩
  simp [display_dashboard_metrics, he]

/-- C5 witness: the guard at the empty set and the summary of a concrete
one-record set. -/
theorem metrics_empty_guard_witness :
    display_dashboard_metrics [] "Total_COGS" = none ∧
      ∃ s, display_dashboard_metrics [rowNullCats] "Total_COGS" = some s ∧
        s.avgCostPerPart = s.metricSum / (([rowNullCats] : List InventoryRow).length : Rat) :=
  ⟨(metrics_empty_guard "Total_COGS").1,
    (metrics_empty_guard "Total_COGS").2 [rowNullCats] (by decide)⟩

/-! ## C9: export file name -/

/-- C9 counterexample: at a concrete timestamp the file name built by
`display_dashboard` runs the source id `2798` and the timestamp together,
and differs from the spec pattern that separates them with an underscore. -/
theorem export_file_name_mismatch :
    export_file_name ⟨2026, 10, 12, 9, 30, 0⟩
        = "inventory_report_279820261012_093000.csv" ∧
      specExportFileName "2798" (strftimeCompact ⟨2026, 10, 12, 9, 30, 0⟩)
        = "inventory_report_2798_20261012_093000.csv" ∧
      export_file_name ⟨2026, 10, 12, 9, 30, 0⟩
        ≠ specExportFileName "2798" (strftimeCompact ⟨2026, 10, 12, 9, 30, 0⟩) := by
  refine ⟨?_, ?_, ?_⟩ <;> decide

/-- C9 (amended): every export file name is
`inventory_report_<source-id><YYYYMMDD_HHMMSS>.csv` with source id `2798`
and no underscore between the source id and the timestamp. -/
theorem export_file_name_amended (t : Timestamp) :
    export_file_name t = amendedExportFileName "2798" (strftimeCompact t) := by
  rfl

end InventoryDashboard
